import Mathlib

/-!
Verification of the grid-intelligence document pipeline of the
pori-datacenter-platform repository.

Python strings are embedded as lists of characters (`PyStr`), and the
string operations the pipeline uses (`str.split`, `str.strip`,
`str.lower`, `in`-substring tests, the capacity regex) are re-implemented
over that representation.  Numeric values are embedded as rationals.
-/

namespace PoriGrid

/-- A Python string, embedded as its sequence of characters. -/
abbrev PyStr := List Char

/-- Python `text.split(sep)` for a one-character separator: splits on every
occurrence of the separator and keeps empty fragments. -/
def pySplit (sep : Char) : PyStr → List PyStr
  | [] => [[]]
  | c :: cs =>
    let r := pySplit sep cs
    if c = sep then [] :: r
    else
      match r with
      | [] => [[c]]
      | h :: t => (c :: h) :: t

/-- Python `str.strip()`: removes leading and trailing whitespace. -/
def pyStrip (s : PyStr) : PyStr :=
  ((s.dropWhile Char.isWhitespace).reverse.dropWhile Char.isWhitespace).reverse

/-- Python `str.lower()`. -/
def pyLower (s : PyStr) : PyStr := s.map Char.toLower

/-- Python `str.upper()`. -/
def pyUpper (s : PyStr) : PyStr := s.map Char.toUpper

/-- Does `pre` occur at the start of `l`?  (Python `str.startswith`.) -/
def leadsWith (pre l : PyStr) : Bool :=
  match pre, l with
  | [], _ => true
  | _ :: _, [] => false
  | p :: ps, c :: cs => p = c && leadsWith ps cs

/-- Python `needle in haystack` substring membership. -/
def occursIn (needle haystack : PyStr) : Bool :=
  leadsWith needle haystack ||
    match haystack with
    | [] => false
    | _ :: cs => occursIn needle cs

/-- Python `text.split()` with no argument: split on whitespace runs,
dropping empty fragments. -/
def pySplitWs (s : PyStr) : List PyStr :=
  (pySplit ' ' (s.map fun c => if c.isWhitespace then ' ' else c)).filter
    (fun w => w ≠ [])

/-- Python `' '.join(words)`. -/
def joinWithSpace (ws : List PyStr) : PyStr :=
  match ws with
  | [] => []
  | w :: rest => rest.foldl (fun acc x => acc ++ [' '] ++ x) w

/-- Value of a list of decimal digit characters. -/
def digitsToNat (l : PyStr) : Nat :=
  l.foldl (fun a c => a * 10 + (c.toNat - 48)) 0

/-- Python `float(s)` on a plain decimal numeral `digits[.digits]`,
embedded exactly as a rational. -/
def parsePyFloat (s : PyStr) : ℚ :=
  match pySplit '.' s with
  | [ip] => (digitsToNat ip : ℚ)
  | [ip, fp] => (digitsToNat ip : ℚ) + (digitsToNat fp : ℚ) / (10 ^ fp.length)
  | _ => 0

/-- Python `value.replace(',', '')`. -/
def removeCommas (s : PyStr) : PyStr := s.filter (fun c => c ≠ ',')

/-!
The capacity regex of `grid_document_analyzer.py`:
`(\d+(?:,\d{3})*(?:\.\d+)?)\s*(MW|GW|MVA)` with `re.IGNORECASE`,
applied with `re.findall`.  For this pattern Python's backtracking search
coincides with the greedy deterministic matcher below: shortening `\d+`,
`(?:,\d{3})*` or `(?:\.\d+)?` always leaves a digit, a comma or a dot as
the next character, on which the mandatory unit alternation can never
start, so the maximal-munch parse is the only candidate and the
alternatives `MW`, `GW`, `MVA` are mutually exclusive at any position. -/

/-- Maximal run of ASCII digits at the front (`\d+` / `\d*`). -/
def spanDigits (l : PyStr) : PyStr × PyStr :=
  match l with
  | [] => ([], [])
  | c :: cs =>
    if c.isDigit then
      let (d, r) := spanDigits cs
      (c :: d, r)
    else ([], l)

/-- Greedy `(?:,\d{3})*`: as many comma-plus-three-digit groups as possible. -/
def takeCommaGroups (l : PyStr) : PyStr × PyStr :=
  match l with
  | ',' :: d1 :: d2 :: d3 :: rest =>
    if d1.isDigit && d2.isDigit && d3.isDigit then
      let (g, r) := takeCommaGroups rest
      (',' :: d1 :: d2 :: d3 :: g, r)
    else ([], l)
  | _ => ([], l)

/-- Greedy `(?:\.\d+)?`: a dot followed by at least one digit, if present. -/
def takeDecimalPart (l : PyStr) : PyStr × PyStr :=
  match l with
  | '.' :: rest =>
    match spanDigits rest with
    | ([], _) => ([], l)
    | (d, r) => ('.' :: d, r)
  | _ => ([], l)

/-- Greedy `\s*`. -/
def spanWs (l : PyStr) : PyStr × PyStr :=
  match l with
  | [] => ([], [])
  | c :: cs =>
    if c.isWhitespace then
      let (w, r) := spanWs cs
      (c :: w, r)
    else ([], l)

/-- The unit alternation `(MW|GW|MVA)`, case-insensitive, returning the
matched source text. -/
def matchUnit (l : PyStr) : Option (PyStr × PyStr) :=
  match l with
  | a :: b :: rest =>
    if a.toLower = 'm' && b.toLower = 'w' then some ([a, b], rest)
    else if a.toLower = 'g' && b.toLower = 'w' then some ([a, b], rest)
    else
      match rest with
      | c :: rest2 =>
        if a.toLower = 'm' && b.toLower = 'v' && c.toLower = 'a' then
          some ([a, b, c], rest2)
        else none
      | [] => none
  | _ => none

/-- Try to match the whole capacity pattern at the head of `l`, returning
the two capture groups (number text, unit text) and the remaining input. -/
def tryCapacityMatch (l : PyStr) : Option (PyStr × PyStr × PyStr) :=
  match spanDigits l with
  | ([], _) => none
  | (ds, r1) =>
    let (cg, r2) := takeCommaGroups r1
    let (dec, r3) := takeDecimalPart r2
    let (_, r4) := spanWs r3
    match matchUnit r4 with
    | some (u, rest) => some (ds ++ cg ++ dec, u, rest)
    | none => none

/-- `re.findall` scan: try a match at every position, resuming after the
end of each match.  The fuel argument bounds the scan by the input length. -/
def scanCapacityAux : Nat → PyStr → List (PyStr × PyStr)
  | 0, _ => []
  | _ + 1, [] => []
  | fuel + 1, c :: cs =>
    match tryCapacityMatch (c :: cs) with
    | some (v, u, rest) => (v, u) :: scanCapacityAux fuel rest
    | none => scanCapacityAux fuel cs

/-- All `(value, unit)` pairs the capacity regex finds in a sentence. -/
def findCapacityValues (s : PyStr) : List (PyStr × PyStr) :=
  scanCapacityAux s.length s

/-- The capacity keyword vocabulary of `GridDocumentAnalyzer.__init__`. -/
def capacity_keywords : List PyStr :=
  ["capacity".data, "MW".data, "GW".data, "transmission capacity".data,
   "grid capacity".data, "available capacity".data, "thermal capacity".data,
   "power transfer".data, "transfer capacity".data]

/-- Case-insensitive test that some capacity keyword occurs in a sentence
(`any(keyword.lower() in sentence.lower() for keyword in ...)`). -/
def hasCapacityKeyword (s : PyStr) : Bool :=
  capacity_keywords.any (fun k => occursIn (pyLower k) (pyLower s))

/-- One element of the analyzer's `capacity_info` list: the dict
`{'page': ..., 'text': ..., 'values': ..., 'type': 'capacity'}`. -/
structure CapacityMatch where
  page : Nat
  text : PyStr
  values : List (PyStr × PyStr)
  rtype : PyStr := "capacity".data
deriving DecidableEq, Repr

/-- `GridDocumentAnalyzer.extract_capacity_info`: split the page text on
periods, strip each sentence, and for each sentence that contains a
capacity keyword and at least one regex match, emit one record. -/
def extract_capacity_info (text : PyStr) (page_num : Nat) : List CapacityMatch :=
  (pySplit '.' text).filterMap fun sentence =>
    let s := pyStrip sentence
    if hasCapacityKeyword s then
      let numbers := findCapacityValues s
      if numbers.isEmpty then none
      else some { page := page_num, text := s, values := numbers }
    else none

/-!  Loader: `create_grid_database.py` (`GridIntelligenceDatabase`). -/

/-- Unit normalization inside `insert_capacity_data`: given one
`(value, unit)` pair from the regex, produce the stored
`(capacity_mw, capacity_unit)` pair.  `GW` is multiplied by 1000, `MW`
passes through, `MVA` is multiplied by 0.95; any other unit leaves both
fields null. -/
def normalizeCapacityValue (value unit : PyStr) : Option ℚ × Option PyStr :=
  let u := pyUpper unit
  if u = "GW".data then
    (some (parsePyFloat (removeCommas value) * 1000), some "MW".data)
  else if u = "MW".data then
    (some (parsePyFloat (removeCommas value)), some "MW".data)
  else if u = "MVA".data then
    (some (parsePyFloat (removeCommas value) * (95 / 100)), some "MW".data)
  else (none, none)

/-- The `for value, unit in item['values']: ...; break` loop of
`insert_capacity_data`: only the first pair is used, and an empty list
leaves both fields null. -/
def capacityFromValues (values : List (PyStr × PyStr)) : Option ℚ × Option PyStr :=
  match values with
  | [] => (none, none)
  | (v, u) :: _ => normalizeCapacityValue v u

/-- The project indicator terms of `extract_project_name`. -/
def project_indicators : List PyStr :=
  ["line".data, "connection".data, "link".data, "project".data,
   "development".data]

/-- Inner loop of `extract_project_name`: find the first word containing
the indicator and return the window of two words before through two words
after it. -/
def projectWindow (indicator : PyStr) (ws : List PyStr) (i : Nat)
    (all : List PyStr) : Option PyStr :=
  match ws with
  | [] => none
  | w :: rest =>
    if occursIn indicator (pyLower w) then
      some (joinWithSpace ((all.drop (i - 2)).take (i + 3 - (i - 2))))
    else projectWindow indicator rest (i + 1) all

/-- `GridIntelligenceDatabase.extract_project_name`. -/
def extract_project_name (text : PyStr) : Option PyStr :=
  let lowered := pyLower text
  let words := pySplitWs text
  project_indicators.firstM fun ind =>
    if occursIn ind lowered then projectWindow ind words 0 words else none

/-- The fixed gazetteer of `extract_location`. -/
def gazetteer : List PyStr :=
  ["Finland".data, "Sweden".data, "Norway".data, "Denmark".data,
   "Estonia".data, "Pori".data, "Helsinki".data, "Tampere".data,
   "Oulu".data, "Turku".data, "Northern Finland".data,
   "Southern Finland".data, "Western Finland".data]

/-- `GridIntelligenceDatabase.extract_location`: first gazetteer entry
occurring case-insensitively in the text. -/
def extract_location (text : PyStr) : Option PyStr :=
  let lowered := pyLower text
  gazetteer.firstM fun loc =>
    if occursIn (pyLower loc) lowered then some loc else none

/-- `classify_connection_type`. -/
def classify_connection_type (text : PyStr) : PyStr :=
  let t := pyLower text
  if occursIn "cross-border".data t || occursIn "international".data t then
    "International Connection".data
  else if occursIn "transmission".data t then "Transmission Connection".data
  else if occursIn "regional".data t then "Regional Connection".data
  else if occursIn "distribution".data t then "Distribution Connection".data
  else "General Connection".data

/-- `classify_constraint_type`. -/
def classify_constraint_type (text : PyStr) : PyStr :=
  let t := pyLower text
  if occursIn "thermal".data t then "Thermal Constraint".data
  else if occursIn "voltage".data t then "Voltage Constraint".data
  else if occursIn "congestion".data t then "Congestion".data
  else if occursIn "bottleneck".data t then "Bottleneck".data
  else "General Constraint".data

/-- Python `text[:500]` truncation used on every description field. -/
def pyTruncate500 (s : PyStr) : PyStr := s.take 500

/-- An item of the analysis JSON's `connection_data` list. -/
structure ConnectionItem where
  document_source : Option PyStr := none
  page : Nat
  text : PyStr
deriving DecidableEq

/-- An item of the analysis JSON's `constraint_data` list. -/
structure ConstraintItem where
  document_source : Option PyStr := none
  page : Nat
  text : PyStr
deriving DecidableEq

/-- An item of the analysis JSON's `investment_data` list. -/
structure InvestmentItem where
  document_source : Option PyStr := none
  page : Nat
  text : PyStr
  years : List PyStr
  costs : List (PyStr × PyStr)
deriving DecidableEq

/-- An item of the analysis JSON's `capacity_data` list, as consumed by
the loader (the analyzer never sets `document_source`, so the loader
defaults it to `'Unknown'`). -/
structure CapacityItem where
  document_source : Option PyStr := none
  page : Nat
  text : PyStr
  values : List (PyStr × PyStr)
deriving DecidableEq

/-- A row of the `grid_capacity` table. -/
structure CapacityRow where
  document_source : PyStr
  page_number : Nat
  capacity_mw : Option ℚ
  capacity_unit : Option PyStr
  description : PyStr
  project_name : Option PyStr
  location : Option PyStr
deriving DecidableEq

/-- A row of the `grid_connections` table. -/
structure ConnectionRow where
  document_source : PyStr
  page_number : Nat
  connection_type : PyStr
  description : PyStr
deriving DecidableEq

/-- A row of the `grid_constraints` table. -/
structure ConstraintRow where
  document_source : PyStr
  page_number : Nat
  constraint_type : PyStr
  description : PyStr
deriving DecidableEq

/-- A row of the `investment_projects` table. -/
structure InvestmentRow where
  document_source : PyStr
  page_number : Nat
  description : PyStr
  investment_amount : Option ℚ
  currency : Option PyStr
  timeline : Option PyStr
deriving DecidableEq

/-- A row of the `document_metadata` table (`filename` is UNIQUE). -/
structure MetaRow where
  filename : PyStr
  pages_processed : Nat
  capacity_points : Nat
  connection_points : Nat
  constraint_points : Nat
  investment_points : Nat
deriving DecidableEq

/-- Per-document summary of the analysis JSON (`document_summaries`
values), carrying the typed item lists and the processed page count. -/
structure DocSummary where
  pages_processed : Nat
  capacity_info : List CapacityItem
  connection_info : List ConnectionItem
  constraint_info : List ConstraintItem
  investment_info : List InvestmentItem
deriving DecidableEq

/-- The analysis JSON consumed by the loader. -/
structure AnalysisData where
  capacity_data : List CapacityItem
  connection_data : List ConnectionItem
  constraint_data : List ConstraintItem
  investment_data : List InvestmentItem
  document_summaries : List (PyStr × DocSummary)
deriving DecidableEq

/-- The five-table store created by `create_database`. -/
structure GridDb where
  grid_capacity : List CapacityRow
  grid_connections : List ConnectionRow
  grid_constraints : List ConstraintRow
  investment_projects : List InvestmentRow
  document_metadata : List MetaRow
deriving DecidableEq

/-- `item.get('document_source', 'Unknown')`. -/
def sourceOrUnknown (s : Option PyStr) : PyStr :=
  match s with
  | some v => v
  | none => "Unknown".data

/-- The row `insert_capacity_data` builds for one capacity item. -/
def capacityRowOfItem (item : CapacityItem) : CapacityRow :=
  let (mw, unit) := capacityFromValues item.values
  { document_source := sourceOrUnknown item.document_source
    page_number := item.page
    capacity_mw := mw
    capacity_unit := unit
    description := pyTruncate500 item.text
    project_name := extract_project_name item.text
    location := extract_location item.text }

/-- The row `insert_connection_data` builds for one connection item. -/
def connectionRowOfItem (item : ConnectionItem) : ConnectionRow :=
  { document_source := sourceOrUnknown item.document_source
    page_number := item.page
    connection_type := classify_connection_type item.text
    description := pyTruncate500 item.text }

/-- The row `insert_constraint_data` builds for one constraint item. -/
def constraintRowOfItem (item : ConstraintItem) : ConstraintRow :=
  { document_source := sourceOrUnknown item.document_source
    page_number := item.page
    constraint_type := classify_constraint_type item.text
    description := pyTruncate500 item.text }

/-- The row `insert_investment_data` builds for one investment item: the
first cost pair supplies amount and currency, and the year list joined
with `-` supplies the timeline. -/
def investmentRowOfItem (item : InvestmentItem) : InvestmentRow :=
  let (amount, currency) :=
    match item.costs with
    | [] => (none, none)
    | (a, c) :: _ => (some (parsePyFloat (removeCommas a)), some c)
  let timeline :=
    match item.years with
    | [] => none
    | y :: rest => some (rest.foldl (fun acc x => acc ++ ['-'] ++ x) y)
  { document_source := sourceOrUnknown item.document_source
    page_number := item.page
    description := pyTruncate500 item.text
    investment_amount := amount
    currency := currency
    timeline := timeline }

/-- The metadata row `insert_document_metadata` builds for one
`document_summaries` entry. -/
def metaRowOf (p : PyStr × DocSummary) : MetaRow :=
  { filename := p.1
    pages_processed := p.2.pages_processed
    capacity_points := p.2.capacity_info.length
    connection_points := p.2.connection_info.length
    constraint_points := p.2.constraint_info.length
    investment_points := p.2.investment_info.length }

/-- SQLite `INSERT OR REPLACE` keyed on the UNIQUE `filename` column: any
existing row with the same filename is deleted and the new row inserted. -/
def upsertMeta (tbl : List MetaRow) (r : MetaRow) : List MetaRow :=
  (tbl.filter fun x => x.filename ≠ r.filename) ++ [r]

/-- `insert_document_metadata`: upsert one metadata row per summary. -/
def insert_document_metadata (tbl : List MetaRow)
    (summaries : List (PyStr × DocSummary)) : List MetaRow :=
  summaries.foldl (fun t p => upsertMeta t (metaRowOf p)) tbl

/-- `GridIntelligenceDatabase.create_database`: appends the typed rows of
the analysis data to the four record tables and upserts the per-document
metadata rows. -/
def create_database (db : GridDb) (data : AnalysisData) : GridDb :=
  { grid_capacity := db.grid_capacity ++ data.capacity_data.map capacityRowOfItem
    grid_connections :=
      db.grid_connections ++ data.connection_data.map connectionRowOfItem
    grid_constraints :=
      db.grid_constraints ++ data.constraint_data.map constraintRowOfItem
    investment_projects :=
      db.investment_projects ++ data.investment_data.map investmentRowOfItem
    document_metadata :=
      insert_document_metadata db.document_metadata data.document_summaries }

/-!  Harvester: `tso_document_harvester.py` (`TSODocumentHarvester`). -/

/-- The outcome of the HTTP GET in `download_document`: the lowercased
`content-type` header and the payload bytes, or no response when the
request (or `raise_for_status`) raises. -/
structure HttpResponse where
  contentType : PyStr
  content : PyStr
deriving DecidableEq

/-- The environment `download_document` runs in: whether the target path
already exists locally, and what the network returns. -/
structure DownloadCtx where
  localExists : Bool
  response : Option HttpResponse
deriving DecidableEq

/-- Python `content[:10].startswith(b'%PDF')`. -/
def pdfMagicOk (content : PyStr) : Bool :=
  leadsWith "%PDF".data (content.take 10)

/-- `TSODocumentHarvester.download_document`: skip when the local file
exists; on a request failure return nothing; when the content-type header
does not mention `pdf`, require the `%PDF` magic bytes; otherwise save
and return the local path. -/
def download_document (localPath : PyStr) (ctx : DownloadCtx) : Option PyStr :=
  if ctx.localExists then some localPath
  else
    match ctx.response with
    | none => none
    | some r =>
      if ¬ occursIn "pdf".data (pyLower r.contentType) then
        if ¬ pdfMagicOk r.content then none
        else some localPath
      else some localPath

/-- Text accumulated by the pdfplumber loop: pages whose `extract_text`
returned a non-empty string contribute their text plus a newline
(`None` and the empty string are both skipped by `if page_text:`, so a
page is embedded as just its possibly-empty text). -/
def plumberText (pages : List PyStr) : PyStr :=
  pages.foldl (fun acc t => if t.isEmpty then acc else acc ++ t ++ ['\n']) []

/-- Text accumulated by the PyPDF2 loop: every page that extracts without
raising contributes its text plus a newline; raising pages are skipped. -/
def pypdf2Text (pages : List (Except Unit PyStr)) : PyStr :=
  pages.foldl
    (fun acc p =>
      match p with
      | .ok t => acc ++ t ++ ['\n']
      | .error _ => acc)
    []

/-- The PyPDF2 fallback branch of `extract_text_from_pdf`: open failure
yields nothing, otherwise the accumulated text is returned when it strips
non-empty. -/
def pypdf2Fallback (fb : Except Unit (List (Except Unit PyStr))) : Option PyStr :=
  match fb with
  | .error _ => none
  | .ok pages =>
    let t := pypdf2Text pages
    if (pyStrip t).isEmpty then none else some t

/-- `TSODocumentHarvester.extract_text_from_pdf`: pdfplumber first; when
it raises, the enclosing `except` returns nothing; when it completes with
text that strips non-empty, that text is returned; otherwise the PyPDF2
fallback runs. -/
def extract_text_from_pdf (primary : Except Unit (List PyStr))
    (fallback : Except Unit (List (Except Unit PyStr))) : Option PyStr :=
  match primary with
  | .error _ => none
  | .ok pages =>
    let t := plumberText pages
    if (pyStrip t).isEmpty then pypdf2Fallback fallback else some t

/-!  Validator: `end_to_end_analysis.py` (`EndToEndValidator`).

The validator only reads on-disk artifacts; the artifact surface it
inspects is embedded as `ArtifactState`.  A present file is a `some`
carrying the facts the validator extracts from it; `none` is a missing
file.  Scores are exact rationals (`33.33 = 3333/100`). -/

/-- Facts read from `grid_intelligence_analysis.json` when it exists and
parses: the document count and the four record-list lengths. -/
structure AnalysisJson where
  documents_analyzed : Nat
  capacity_count : Nat
  connection_count : Nat
  constraint_count : Nat
  investment_count : Nat
deriving DecidableEq

/-- Facts read from `grid_intelligence.db` when the file exists.
`corrupt` models the `except` branch of sqlite-level failures; row counts
are `none` when the `SELECT COUNT` on that expected table raises. -/
structure DbInfo where
  corrupt : Bool
  tablesCreated : Nat
  viewsCreated : Nat
  capRows : Option Nat
  connRows : Option Nat
  consRows : Option Nat
  invRows : Option Nat
  metaRows : Option Nat
  capNonNullExists : Bool
  hasCapacityMwColumn : Bool
deriving DecidableEq

/-- Facts read from one export CSV when the file exists: whether
`pd.read_csv` succeeds, the data row count and the column names. -/
structure CsvInfo where
  readCsvOk : Bool
  rows : Nat
  columns : List PyStr
deriving DecidableEq

/-- One widget of the dashboard configuration: its `str()` rendering and
its `type` field. -/
structure Widget where
  rendered : PyStr
  wtype : PyStr
deriving DecidableEq

/-- Facts read from `arcgis_dashboard_config.json` when the file exists. -/
structure DashConfig where
  parseOk : Bool
  widgets : List Widget
  dataSources : Nat
deriving DecidableEq

/-- The complete artifact surface audited by the validator, plus the
report file the validator itself writes. -/
structure ArtifactState where
  fingridClientExists : Bool
  entsoeClientExists : Bool
  harvesterExists : Bool
  builderExists : Bool
  reportMdExists : Bool
  analysis : Option AnalysisJson
  db : Option DbInfo
  capacityCsv : Option CsvInfo
  connectionsCsv : Option CsvInfo
  investmentsCsv : Option CsvInfo
  dashboardConfig : Option DashConfig
  cohesionReport : Option String
deriving DecidableEq

/-- An artifact state with nothing present at all. -/
def emptyArtifacts : ArtifactState :=
  { fingridClientExists := false
    entsoeClientExists := false
    harvesterExists := false
    builderExists := false
    reportMdExists := false
    analysis := none
    db := none
    capacityCsv := none
    connectionsCsv := none
    investmentsCsv := none
    dashboardConfig := none
    cohesionReport := none }

/-- Count a boolean as the `0`/`1` Python `sum` counts it. -/
def b2n (b : Bool) : Nat := if b then 1 else 0

/-- A boolean as the rational Python's arithmetic coerces it to. -/
def b2q (b : Bool) : ℚ := if b then 1 else 0

/-- `validate_data_ingestion`: counts the three source modules, reads the
document count from the analysis file, and derives the stage status. -/
def stage1Status (a : ArtifactState) : String :=
  let sources :=
    b2n a.fingridClientExists + b2n a.entsoeClientExists + b2n a.harvesterExists
  let docs :=
    match a.analysis with
    | some j => j.documents_analyzed
    | none => 0
  if 3 ≤ sources ∧ 0 < docs then "complete"
  else if 3 ≤ sources then "configured"
  else "incomplete"

/-- `validate_data_processing`: derives the stage status from the
analysis file's record counts. -/
def stage2Status (a : ArtifactState) : String :=
  match a.analysis with
  | none => "failed"
  | some j =>
    let pdfDone := 0 < j.documents_analyzed
    let extraction := 0 < j.capacity_count
    let categorization :=
      0 < j.connection_count ∧ 0 < j.constraint_count ∧ 0 < j.investment_count
    if pdfDone ∧ extraction ∧ categorization then "complete"
    else if pdfDone then "partial"
    else "failed"

/-- `data_inserted` of `validate_database_creation`: how many of the five
expected tables both exist and hold at least one row. -/
def dataInserted (d : DbInfo) : Nat :=
  ([d.capRows, d.connRows, d.consRows, d.invRows, d.metaRows]).countP
    fun o =>
      match o with
      | some n => 0 < n
      | none => false

/-- `validate_database_creation`: derives the stage status from the
database file. -/
def stage3Status (a : ArtifactState) : String :=
  match a.db with
  | none => "missing"
  | some d =>
    if d.corrupt then "corrupted"
    else if 5 ≤ d.tablesCreated ∧ 4 ≤ dataInserted d then "complete"
    else "partial"

/-- One CSV's contribution to `data_consistency`: it parses, has at least
one row and more than two columns. -/
def csvConsistent (c : Option CsvInfo) : Bool :=
  match c with
  | some i => i.readCsvOk && 0 < i.rows && 2 < i.columns.length
  | none => false

/-- `validate_arcgis_exports`: derives the stage status from the three
export CSVs. -/
def stage4Status (a : ArtifactState) : String :=
  let csvs := [a.capacityCsv, a.connectionsCsv, a.investmentsCsv]
  let created := csvs.countP Option.isSome
  let consistency := csvs.countP csvConsistent
  if 3 ≤ created ∧ 3 ≤ consistency then "complete"
  else if 2 ≤ created then "partial"
  else "incomplete"

/-- `validate_dashboard_config`: derives the stage status from the
dashboard configuration and the builder module. -/
def stage5Status (a : ArtifactState) : String :=
  match a.dashboardConfig with
  | none => "missing"
  | some cfg =>
    let ready :=
      cfg.parseOk ∧ 3 ≤ cfg.widgets.length ∧ 3 ≤ cfg.dataSources
    if ready ∧ a.builderExists then "ready" else "configured"

/-- The fixed per-stage status-to-score policy of
`calculate_data_flow_score`: `complete` scores 100, `configured`, `ready`
and `partial` score 80, anything else scores 40. -/
def stageStatusScore (status : String) : ℚ :=
  if status = "complete" then 100
  else if status ∈ (["configured", "ready", "partial"] : List String) then 80
  else 40

/-- Python `round(x, 1)` on the exact rational value. -/
def round1 (q : ℚ) : ℚ := (round (10 * q) : ℚ) / 10

/-- Result of `check_data_format_consistency`. -/
structure FormatCheck where
  json_structure_valid : Bool
  csv_headers_consistent : Bool
  database_schema_aligned : Bool
  score : ℚ
deriving DecidableEq

/-- The expected capacity CSV columns of `check_data_format_consistency`. -/
def expectedCapacityCols : List PyStr :=
  ["capacity_mw".data, "document_source".data, "page_number".data]

/-- `check_data_format_consistency`: JSON structure, CSV headers and
database schema, each a boolean, scored at 33.33 a piece and rounded to
one decimal. -/
def check_data_format_consistency (a : ArtifactState) : FormatCheck :=
  let jsonOk := a.analysis.isSome
  let afterCapacity :=
    match a.capacityCsv with
    | none => true
    | some c =>
      if c.readCsvOk then
        expectedCapacityCols.any fun col => c.columns.contains col
      else false
  let headersOk :=
    match a.connectionsCsv with
    | none => afterCapacity
    | some c => if c.readCsvOk then afterCapacity else false
  let schemaOk :=
    match a.db with
    | none => false
    | some d => if d.corrupt then false else d.hasCapacityMwColumn
  { json_structure_valid := jsonOk
    csv_headers_consistent := headersOk
    database_schema_aligned := schemaOk
    score := round1 ((b2q jsonOk + b2q headersOk + b2q schemaOk) * (3333 / 100)) }

/-- Result of `check_api_database_flow`. -/
structure ApiDbCheck where
  api_data_extractable : Bool
  database_insertable : Bool
  data_transformation_working : Bool
  score : ℚ
deriving DecidableEq

/-- The `database_insertable` and `data_transformation_working` booleans
of `check_api_database_flow`: both stay false when the database is
missing, corrupted, or its `grid_capacity` table cannot be counted. -/
def apiDbBooleans (a : ArtifactState) : Bool × Bool :=
  match a.db with
  | none => (false, false)
  | some d =>
    if d.corrupt then (false, false)
    else
      match d.capRows with
      | none => (false, false)
      | some n => (decide (0 < n), d.capNonNullExists)

/-- `check_api_database_flow`: analysis file present, capacity rows
inserted, and a non-null normalized capacity value present. -/
def check_api_database_flow (a : ArtifactState) : ApiDbCheck :=
  let api := a.analysis.isSome
  let t := apiDbBooleans a
  { api_data_extractable := api
    database_insertable := t.1
    data_transformation_working := t.2
    score := (b2q api + b2q t.1 + b2q t.2) * (3333 / 100) }

/-- Result of `check_database_export_flow`. -/
structure DbExportCheck where
  database_readable : Bool
  csv_exports_generated : Bool
  data_preserved : Bool
  score : ℚ
deriving DecidableEq

/-- The three booleans of `check_database_export_flow`: database file
present, capacity CSV present, and the exported row count at least 80
percent of the source `grid_capacity` row count. -/
def dbExportBooleans (a : ArtifactState) : Bool × Bool × Bool :=
  match a.db with
  | none => (false, false, false)
  | some d =>
    match a.capacityCsv with
    | none => (true, false, false)
    | some c =>
      let preserved :=
        if d.corrupt then false
        else
          match d.capRows with
          | none => false
          | some n =>
            if c.readCsvOk then decide ((n : ℚ) * (8 / 10) ≤ (c.rows : ℚ))
            else false
      (true, true, preserved)

/-- `check_database_export_flow`: the three booleans above, scored at
33.33 a piece. -/
def check_database_export_flow (a : ArtifactState) : DbExportCheck :=
  let t := dbExportBooleans a
  { database_readable := t.1
    csv_exports_generated := t.2.1
    data_preserved := t.2.2
    score := (b2q t.1 + b2q t.2.1 + b2q t.2.2) * (3333 / 100) }

/-- Result of `check_export_dashboard_flow`. -/
structure ExportDashCheck where
  csv_files_available : Bool
  dashboard_config_references_data : Bool
  widget_data_mappings_correct : Bool
  score : ℚ
deriving DecidableEq

/-- The `dashboard_config_references_data` and
`widget_data_mappings_correct` booleans of `check_export_dashboard_flow`:
enough data sources referenced, and capacity plus bar-chart widgets
defined, both false when the configuration is missing or unparseable. -/
def exportDashBooleans (a : ArtifactState) : Bool × Bool :=
  match a.dashboardConfig with
  | none => (false, false)
  | some cfg =>
    if cfg.parseOk then
      (decide (2 ≤ cfg.dataSources),
       (cfg.widgets.any fun w => occursIn "capacity".data (pyLower w.rendered))
         && (cfg.widgets.any fun w => w.wtype = "bar_chart".data))
    else (false, false)

/-- `check_export_dashboard_flow`: both key CSVs present, and the
dashboard booleans above, scored at 33.33 a piece. -/
def check_export_dashboard_flow (a : ArtifactState) : ExportDashCheck :=
  let avail :=
    decide (2 ≤ b2n a.capacityCsv.isSome + b2n a.connectionsCsv.isSome)
  let t := exportDashBooleans a
  { csv_files_available := avail
    dashboard_config_references_data := t.1
    widget_data_mappings_correct := t.2
    score := (b2q avail + b2q t.1 + b2q t.2) * (3333 / 100) }

/-- `calculate_data_flow_score`: the mean of the per-stage scores of the
five pipeline stages (0 would be returned were the list empty). -/
def calculate_data_flow_score (a : ArtifactState) : ℚ :=
  let stage_scores :=
    [stageStatusScore (stage1Status a), stageStatusScore (stage2Status a),
     stageStatusScore (stage3Status a), stageStatusScore (stage4Status a),
     stageStatusScore (stage5Status a)]
  if stage_scores.isEmpty then 0
  else stage_scores.sum / stage_scores.length

/-- `calculate_integration_score`: the mean of the four integration-check
scores (0 would be returned were the list empty). -/
def calculate_integration_score (a : ArtifactState) : ℚ :=
  let scores :=
    [(check_data_format_consistency a).score, (check_api_database_flow a).score,
     (check_database_export_flow a).score, (check_export_dashboard_flow a).score]
  if scores.isEmpty then 0 else scores.sum / scores.length

/-- `calculate_output_score`: the export stage scores 100 when complete
and 60 otherwise, the dashboard stage scores 100 when ready and 80
otherwise, and the result is their mean. -/
def calculate_output_score (a : ArtifactState) : ℚ :=
  let export_score : ℚ := if stage4Status a = "complete" then 100 else 60
  let dashboard_score : ℚ := if stage5Status a = "ready" then 100 else 80
  (export_score + dashboard_score) / 2

/-- `calculate_cohesion_score`: the three pillar scores combined by the
fixed weight table and rounded to one decimal. -/
def calculate_cohesion_score (a : ArtifactState) : ℚ :=
  let weights : List (String × ℚ) :=
    [("data_flow", 4 / 10), ("integration_points", 3 / 10),
     ("output_consistency", 3 / 10)]
  let scoreOf : String → ℚ := fun aspect =>
    if aspect = "data_flow" then calculate_data_flow_score a
    else if aspect = "integration_points" then calculate_integration_score a
    else calculate_output_score a
  round1 ((weights.map fun p => scoreOf p.1 * p.2).sum)

/-- One identified gap, embedding the gap strings `identify_gaps` emits. -/
inductive Gap where
  | dataFlow (stage status : String)
  | integration (check : String) (score : ℚ)
  | dbMissing
  | exportMissing (files : List String)
deriving DecidableEq

/-- `identify_gaps`: stages with failing statuses, integration checks
scoring below 80, and direct existence checks for the database and the
two key export files once the cohesion score is below 90. -/
def identify_gaps (a : ArtifactState) (cohesion : ℚ) : List Gap :=
  let stagePairs : List (String × String) :=
    [("stage_1_ingestion", stage1Status a), ("stage_2_processing", stage2Status a),
     ("stage_3_database", stage3Status a), ("stage_4_exports", stage4Status a),
     ("stage_5_dashboard", stage5Status a)]
  let stageGaps := stagePairs.filterMap fun p =>
    if p.2 ∈ (["incomplete", "missing", "failed"] : List String) then
      some (Gap.dataFlow p.1 p.2)
    else none
  let checkPairs : List (String × ℚ) :=
    [("data_format_consistency", (check_data_format_consistency a).score),
     ("api_to_database_flow", (check_api_database_flow a).score),
     ("database_to_export_flow", (check_database_export_flow a).score),
     ("export_to_dashboard_flow", (check_export_dashboard_flow a).score)]
  let checkGaps := checkPairs.filterMap fun p =>
    if p.2 < 80 then some (Gap.integration p.1 p.2) else none
  let directGaps :=
    if cohesion < 90 then
      (if a.db.isSome then [] else [Gap.dbMissing]) ++
        (let missing :=
          (if a.capacityCsv.isSome then []
           else ["grid_capacity_arcgis.csv"]) ++
            (if a.connectionsCsv.isSome then []
             else ["grid_connections_arcgis.csv"])
         if missing.isEmpty then [] else [Gap.exportMissing missing])
    else []
  stageGaps ++ checkGaps ++ directGaps

/-- The machine-readable outcome of a validator run. -/
structure ValidationResults where
  stage_statuses : List (String × String)
  data_flow_score : ℚ
  integration_score : ℚ
  output_score : ℚ
  cohesion_score : ℚ
  gaps_identified : List Gap
deriving DecidableEq

/-- The rendered report header: the run timestamp and the score. -/
def renderReport (r : ValidationResults) (now : String) : String :=
  "# End-to-End Cohesion Analysis Report\nGenerated: " ++ now ++
    "\n\n## Overall Cohesion Score: " ++ toString r.cohesion_score ++ "/100\n"

/-- `run_complete_analysis`: validate every stage and integration point,
compute the cohesion score, identify the gaps, and write the rendered
report (stamped with the run time) next to the audited artifacts. -/
def run_complete_analysis (a : ArtifactState) (now : String) :
    ValidationResults × ArtifactState :=
  let score := calculate_cohesion_score a
  let results : ValidationResults :=
    { stage_statuses :=
        [("stage_1_ingestion", stage1Status a),
         ("stage_2_processing", stage2Status a),
         ("stage_3_database", stage3Status a),
         ("stage_4_exports", stage4Status a),
         ("stage_5_dashboard", stage5Status a)]
      data_flow_score := calculate_data_flow_score a
      integration_score := calculate_integration_score a
      output_score := calculate_output_score a
      cohesion_score := score
      gaps_identified := identify_gaps a score }
  (results, { a with cohesionReport := some (renderReport results now) })

/-!  Shared lemmas. -/

/-- The weighted cohesion formula, unfolded from the weight table. -/
theorem cohesion_score_unfold (a : ArtifactState) :
    calculate_cohesion_score a =
      round1 (calculate_data_flow_score a * (4 / 10) +
        (calculate_integration_score a * (3 / 10) +
          (calculate_output_score a * (3 / 10) + 0))) := by
  simp [calculate_cohesion_score]

/-- The data-flow pillar, unfolded to the mean of the five stage scores. -/
theorem data_flow_score_unfold (a : ArtifactState) :
    calculate_data_flow_score a =
      (stageStatusScore (stage1Status a) + stageStatusScore (stage2Status a) +
        stageStatusScore (stage3Status a) + stageStatusScore (stage4Status a) +
        stageStatusScore (stage5Status a)) / 5 := by
  simp [calculate_data_flow_score]
  ring

/-- The integration pillar, unfolded to the mean of the four check scores. -/
theorem integration_score_unfold (a : ArtifactState) :
    calculate_integration_score a =
      ((check_data_format_consistency a).score + (check_api_database_flow a).score +
        (check_database_export_flow a).score +
        (check_export_dashboard_flow a).score) / 4 := by
  simp [calculate_integration_score]
  ring

/-- Booleans score non-negatively. -/
theorem b2q_nonneg (b : Bool) : 0 ≤ b2q b := by
  unfold b2q
  split <;> norm_num

/-- Evaluation of `parsePyFloat` on a numeral with no decimal point. -/
theorem parsePyFloat_eq_digits {s ip : PyStr} (h : pySplit '.' s = [ip]) :
    parsePyFloat s = (digitsToNat ip : ℚ) := by
  unfold parsePyFloat
  rw [h]

/-- Rounding to one decimal respects integer lower bounds. -/
theorem le_round1_of_le {c : ℤ} {x : ℚ} (h : (c : ℚ) ≤ x) : (c : ℚ) ≤ round1 x := by
  unfold round1
  rw [round_eq]
  have h1 : ((10 * c : ℤ) : ℚ) ≤ 10 * x + 1 / 2 := by
    push_cast
    linarith
  have h2 : (10 * c : ℤ) ≤ ⌊10 * x + 1 / 2⌋ := Int.le_floor.mpr h1
  have h3 : ((10 * c : ℤ) : ℚ) ≤ (⌊10 * x + 1 / 2⌋ : ℚ) := by exact_mod_cast h2
  push_cast at h3 ⊢
  linarith

/-- Every stage status scores at least 40. -/
theorem stageStatusScore_ge_40 (s : String) : 40 ≤ stageStatusScore s := by
  unfold stageStatusScore
  split
  · norm_num
  · split <;> norm_num

/-- Rounding to one decimal preserves non-negativity. -/
theorem round1_nonneg {x : ℚ} (h : 0 ≤ x) : 0 ≤ round1 x := by
  have h2 := @le_round1_of_le 0 x (by exact_mod_cast h)
  exact_mod_cast h2

/-- A three-boolean integration check scores non-negatively. -/
theorem check3_score_nonneg (x y z : Bool) :
    0 ≤ (b2q x + b2q y + b2q z) * (3333 / 100) := by
  have h1 := b2q_nonneg x
  have h2 := b2q_nonneg y
  have h3 := b2q_nonneg z
  nlinarith

/-!  Claim theorems. -/

/-- C2: the per-stage status-to-score mapping is the total function
sending `complete` to 100, each of `configured`, `ready`, `partial` to
80, and every other status — including `missing`, `incomplete`, `failed`
and the statuses the five stages produce when no artifacts are present —
to exactly 40, never 0 and never 100. -/
theorem c2_stage_score_mapping :
    (∀ s : String, s ≠ "complete" →
      s ∉ (["configured", "ready", "partial"] : List String) →
      stageStatusScore s = 40) ∧
    (∀ s : String,
      stageStatusScore s = 40 ∨ stageStatusScore s = 80 ∨ stageStatusScore s = 100) ∧
    stageStatusScore "complete" = 100 ∧
    stageStatusScore "configured" = 80 ∧
    stageStatusScore "ready" = 80 ∧
    stageStatusScore "partial" = 80 ∧
    stageStatusScore "missing" = 40 ∧
    stageStatusScore "incomplete" = 40 ∧
    stageStatusScore "failed" = 40 ∧
    stageStatusScore (stage1Status emptyArtifacts) = 40 ∧
    stageStatusScore (stage2Status emptyArtifacts) = 40 ∧
    stageStatusScore (stage3Status emptyArtifacts) = 40 ∧
    stageStatusScore (stage4Status emptyArtifacts) = 40 ∧
    stageStatusScore (stage5Status emptyArtifacts) = 40 := by
  refine ⟨?_, ?_, ?_, ?_, ?_, ?_, ?_, ?_, ?_, ?_, ?_, ?_, ?_, ?_⟩
  · intro s h1 h2
    unfold stageStatusScore
    rw [if_neg h1, if_neg h2]
  · intro s
    unfold stageStatusScore
    split
    · right; right; rfl
    · split
      · right; left; rfl
      · left; rfl
  all_goals decide

/-- C2 witness: the `corrupted` status the database stage can produce is
neither `complete` nor in the 80-point class, so it scores exactly 40. -/
theorem c2_witness : stageStatusScore "corrupted" = 40 :=
  c2_stage_score_mapping.1 "corrupted" (by decide) (by decide)

/-- C4: load-time unit normalization is exact: a `GW` value is stored
multiplied by 1000, an `MVA` value multiplied by 0.95, an `MW` value
unchanged, the stored unit is `MW` whenever a value is stored, and in
particular 1 GW yields 1000 MW, 100 MVA yields 95 MW and 50 MW yields
50 MW. -/
theorem c4_unit_normalization :
    (∀ v u : PyStr, ∀ q : ℚ, (normalizeCapacityValue v u).1 = some q →
      (normalizeCapacityValue v u).2 = some "MW".data) ∧
    (∀ v : PyStr, normalizeCapacityValue v "GW".data =
      (some (parsePyFloat (removeCommas v) * 1000), some "MW".data)) ∧
    (∀ v : PyStr, normalizeCapacityValue v "MW".data =
      (some (parsePyFloat (removeCommas v)), some "MW".data)) ∧
    (∀ v : PyStr, normalizeCapacityValue v "MVA".data =
      (some (parsePyFloat (removeCommas v) * (95 / 100)), some "MW".data)) ∧
    capacityFromValues [("1".data, "GW".data)] = (some 1000, some "MW".data) ∧
    capacityFromValues [("100".data, "MVA".data)] = (some 95, some "MW".data) ∧
    capacityFromValues [("50".data, "MW".data)] = (some 50, some "MW".data) := by
  refine ⟨?_, ?_, ?_, ?_, ?_, ?_, ?_⟩
  · intro v u q h
    by_cases h1 : pyUpper u = "GW".data
    · simp [normalizeCapacityValue, h1]
    · by_cases h2 : pyUpper u = "MW".data
      · simp [normalizeCapacityValue, h1, h2]
      · by_cases h3 : pyUpper u = "MVA".data
        · simp [normalizeCapacityValue, h1, h2, h3]
        · simp [normalizeCapacityValue, h1, h2, h3] at h
  · intro v; rfl
  · intro v; rfl
  · intro v; rfl
  · show (some (parsePyFloat (removeCommas "1".data) * 1000), some "MW".data) =
      (some (1000 : ℚ), some "MW".data)
    rw [show removeCommas "1".data = ['1'] from by decide,
      @parsePyFloat_eq_digits ['1'] ['1'] (by decide),
      show digitsToNat ['1'] = 1 from by decide]
    norm_num
  · show (some (parsePyFloat (removeCommas "100".data) * (95 / 100)), some "MW".data) =
      (some (95 : ℚ), some "MW".data)
    rw [show removeCommas "100".data = ['1', '0', '0'] from by decide,
      @parsePyFloat_eq_digits ['1', '0', '0'] ['1', '0', '0'] (by decide),
      show digitsToNat ['1', '0', '0'] = 100 from by decide]
    norm_num
  · show (some (parsePyFloat (removeCommas "50".data)), some "MW".data) =
      (some (50 : ℚ), some "MW".data)
    rw [show removeCommas "50".data = ['5', '0'] from by decide,
      @parsePyFloat_eq_digits ['5', '0'] ['5', '0'] (by decide),
      show digitsToNat ['5', '0'] = 50 from by decide]
    norm_num

/-- C4 witness: a lowercase `gw` pair stores a value, so its stored unit
is `MW` by the normalization theorem, instantiated at value 7. -/
theorem c4_witness : (normalizeCapacityValue "7".data "gw".data).2 = some "MW".data :=
  c4_unit_normalization.1 "7".data "gw".data
    (parsePyFloat (removeCommas "7".data) * 1000) rfl

/-- The artifact fields the validator audits (everything but the report
it writes itself). -/
def auditedArtifacts (a : ArtifactState) :=
  (a.fingridClientExists, a.entsoeClientExists, a.harvesterExists,
   a.builderExists, a.reportMdExists, a.analysis, a.db, a.capacityCsv,
   a.connectionsCsv, a.investmentsCsv, a.dashboardConfig)

/-- C6: the validator is deterministic as a two-run property: on a fixed
artifact state, running the complete analysis twice in a row yields the
same cohesion score and the same gap list, and neither run modifies any
audited artifact (only the rendered report, which may carry the run
timestamp, is written). -/
theorem c6_validator_deterministic (a : ArtifactState) (t1 t2 : String) :
    (run_complete_analysis a t1).1.cohesion_score =
      (run_complete_analysis (run_complete_analysis a t1).2 t2).1.cohesion_score ∧
    (run_complete_analysis a t1).1.gaps_identified =
      (run_complete_analysis (run_complete_analysis a t1).2 t2).1.gaps_identified ∧
    auditedArtifacts (run_complete_analysis a t1).2 = auditedArtifacts a ∧
    auditedArtifacts (run_complete_analysis (run_complete_analysis a t1).2 t2).2 =
      auditedArtifacts a :=
  ⟨rfl, rfl, rfl, rfl⟩

/-- C3: for every artifact state, the overall cohesion score equals 0.4
times the mean of the five per-stage scores, plus 0.3 times the mean of
the four integration-check scores, plus 0.3 times the mean of the
export-stage and dashboard-stage output scores, rounded to one decimal
place. -/
theorem c3_cohesion_formula (a : ArtifactState) :
    calculate_cohesion_score a =
      round1 ((4 / 10) *
          ((stageStatusScore (stage1Status a) + stageStatusScore (stage2Status a) +
            stageStatusScore (stage3Status a) + stageStatusScore (stage4Status a) +
            stageStatusScore (stage5Status a)) / 5) +
        (3 / 10) *
          (((check_data_format_consistency a).score +
            (check_api_database_flow a).score +
            (check_database_export_flow a).score +
            (check_export_dashboard_flow a).score) / 4) +
        (3 / 10) *
          (((if stage4Status a = "complete" then (100 : ℚ) else 60) +
            (if stage5Status a = "ready" then (100 : ℚ) else 80)) / 2)) := by
  rw [cohesion_score_unfold, data_flow_score_unfold, integration_score_unfold]
  unfold calculate_output_score
  congr 1
  ring

/-- C10: for every artifact state — including one with no artifacts at
all — the overall cohesion score is at least 37 and in particular never
0: every stage scores at least 40, the output pillar is at least 70, the
integration pillar is at least 0, and 0.4·40 + 0.3·0 + 0.3·70 = 37. -/
theorem c10_cohesion_lower_bound (a : ArtifactState) :
    37 ≤ calculate_cohesion_score a ∧ calculate_cohesion_score a ≠ 0 := by
  have hdf : 40 ≤ calculate_data_flow_score a := by
    rw [data_flow_score_unfold]
    have h1 := stageStatusScore_ge_40 (stage1Status a)
    have h2 := stageStatusScore_ge_40 (stage2Status a)
    have h3 := stageStatusScore_ge_40 (stage3Status a)
    have h4 := stageStatusScore_ge_40 (stage4Status a)
    have h5 := stageStatusScore_ge_40 (stage5Status a)
    linarith
  have hfmt : 0 ≤ (check_data_format_consistency a).score := by
    show (0 : ℚ) ≤ round1 _
    exact round1_nonneg (check3_score_nonneg _ _ _)
  have hapi : 0 ≤ (check_api_database_flow a).score :=
    check3_score_nonneg _ _ _
  have hdbx : 0 ≤ (check_database_export_flow a).score :=
    check3_score_nonneg _ _ _
  have hxd : 0 ≤ (check_export_dashboard_flow a).score :=
    check3_score_nonneg _ _ _
  have hint : 0 ≤ calculate_integration_score a := by
    rw [integration_score_unfold]
    linarith
  have hout : 70 ≤ calculate_output_score a := by
    unfold calculate_output_score
    split <;> split <;> norm_num
  have htotal :
      (37 : ℚ) ≤ calculate_data_flow_score a * (4 / 10) +
        (calculate_integration_score a * (3 / 10) +
          (calculate_output_score a * (3 / 10) + 0)) := by
    linarith
  have hmain : (37 : ℚ) ≤ calculate_cohesion_score a := by
    rw [cohesion_score_unfold]
    exact_mod_cast @le_round1_of_le 37 _ (by exact_mod_cast htotal)
  exact ⟨hmain, by intro h; rw [h] at hmain; norm_num at hmain⟩

/-- An artifact state whose capacity export holds 79 rows against 100
source rows: database and export present and readable, preservation
threshold missed. -/
def c5State : ArtifactState :=
  { emptyArtifacts with
      db := some
        { corrupt := false
          tablesCreated := 5
          viewsCreated := 3
          capRows := some 100
          connRows := some 1
          consRows := some 1
          invRows := some 1
          metaRows := some 1
          capNonNullExists := true
          hasCapacityMwColumn := true }
      capacityCsv := some
        { readCsvOk := true
          rows := 79
          columns := ["capacity_mw".data, "document_source".data,
            "page_number".data, "description".data] } }

/-- C5 counterexample: with the database readable, the export generated
and a 79 percent row-count ratio, `data_preserved` fails and the check
scores 66.66 — two booleans times 33.33 — not the claimed 66.67. -/
theorem c5_counterexample :
    (check_database_export_flow c5State).database_readable = true ∧
    (check_database_export_flow c5State).csv_exports_generated = true ∧
    (check_database_export_flow c5State).data_preserved = false ∧
    (check_database_export_flow c5State).score = 6666 / 100 ∧
    (check_database_export_flow c5State).score ≠ 6667 / 100 := by
  have hb : dbExportBooleans c5State = (true, true, false) := by
    unfold dbExportBooleans c5State emptyArtifacts
    simp
    norm_num
  refine ⟨?_, ?_, ?_, ?_, ?_⟩ <;>
    simp [check_database_export_flow, hb, b2q] <;> norm_num

/-- C5 amended: in the database-to-export check, `data_preserved` is true
iff the export row count is at least 80 percent of the source count, and
when the ratio falls below 80 percent with database and export otherwise
readable the check scores 66.66 (two of three booleans times 33.33), not
100 — the claim's stated value of 66.67 does not occur. -/
theorem c5_amended (a : ArtifactState) (d : DbInfo) (c : CsvInfo) (n : Nat)
    (hdb : a.db = some d) (hcor : d.corrupt = false) (hcap : d.capRows = some n)
    (hcsv : a.capacityCsv = some c) (hread : c.readCsvOk = true) :
    ((check_database_export_flow a).data_preserved = true ↔
      (n : ℚ) * (8 / 10) ≤ (c.rows : ℚ)) ∧
    ((c.rows : ℚ) < (n : ℚ) * (8 / 10) →
      (check_database_export_flow a).score = 6666 / 100) := by
  have hb : dbExportBooleans a =
      (true, true, decide ((n : ℚ) * (8 / 10) ≤ (c.rows : ℚ))) := by
    unfold dbExportBooleans
    rw [hdb, hcsv]
    simp [hcor, hcap, hread]
  constructor
  · show (dbExportBooleans a).2.2 = true ↔ _
    rw [hb]
    exact decide_eq_true_iff
  · intro hlt
    have hfalse : decide ((n : ℚ) * (8 / 10) ≤ (c.rows : ℚ)) = false := by
      simpa using not_le.mpr hlt
    show (b2q (dbExportBooleans a).1 + b2q (dbExportBooleans a).2.1 +
        b2q (dbExportBooleans a).2.2) * (3333 / 100) = 6666 / 100
    rw [hb, hfalse]
    norm_num [b2q]

/-- C5 witness: the amended statement applied to the 79-versus-100 state. -/
theorem c5_witness : (check_database_export_flow c5State).score = 6666 / 100 :=
  (c5_amended c5State _ _ 100 rfl rfl rfl rfl rfl).2 (by norm_num)

/-- A response labeled as PDF by the server whose payload is not a PDF. -/
def c7Response : HttpResponse :=
  { contentType := "application/pdf".data
    content := "<html>not a pdf</html>".data }

/-- Download context for the mislabeling counterexample. -/
def c7Ctx : DownloadCtx :=
  { localExists := false, response := some c7Response }

/-- C7 counterexample: a payload without the `%PDF` magic bytes is saved
and its path returned whenever the server labels the response with a
`pdf` content type, so a successful return does not imply the magic
header. -/
theorem c7_counterexample :
    download_document "doc.pdf".data c7Ctx = some "doc.pdf".data ∧
    pdfMagicOk c7Response.content = false := by decide

/-- C7 amended: the downloader checks the `%PDF` magic bytes only when
the content-type header does not mention `pdf`: in that case a payload
without the magic is rejected with no saved file, while a `pdf`-labeled
response is saved unconditionally; a failed request also returns
nothing. -/
theorem c7_amended (path : PyStr) (ctx : DownloadCtx) :
    (ctx.localExists = false → ctx.response = none →
      download_document path ctx = none) ∧
    (∀ r : HttpResponse, ctx.localExists = false → ctx.response = some r →
      occursIn "pdf".data (pyLower r.contentType) = false →
      pdfMagicOk r.content = false →
      download_document path ctx = none) ∧
    (∀ r : HttpResponse, ctx.localExists = false → ctx.response = some r →
      occursIn "pdf".data (pyLower r.contentType) = true →
      download_document path ctx = some path) := by
  refine ⟨?_, ?_, ?_⟩
  · intro h1 h2
    simp [download_document, h1, h2]
  · intro r h1 h2 h3 h4
    simp [download_document, h1, h2, h3, h4]
  · intro r h1 h2 h3
    simp [download_document, h1, h2, h3]

/-- Download context with an unlabeled non-PDF payload. -/
def c7BadCtx : DownloadCtx :=
  { localExists := false
    response := some { contentType := "text/html".data, content := "<html>".data } }

/-- C7 witness: an `html`-labeled payload without the magic bytes is
rejected, by the amended theorem at a concrete context. -/
theorem c7_witness : download_document "doc.pdf".data c7BadCtx = none :=
  (c7_amended "doc.pdf".data c7BadCtx).2.1 _ rfl rfl (by decide) (by decide)

/-- C8 counterexample: when pdfplumber raises, the extractor returns
nothing without attempting the PyPDF2 fallback, even though the fallback
would have produced text. -/
theorem c8_counterexample :
    extract_text_from_pdf (Except.error ())
        (Except.ok [Except.ok "hello".data]) = none ∧
    pypdf2Fallback (Except.ok [Except.ok "hello".data]) =
      some "hello\n".data := by
  exact ⟨rfl, by decide⟩

/-- C8 amended: extraction is total — it returns text or nothing, never
an exception — and the PyPDF2 fallback is attempted exactly when
pdfplumber completes with text that strips empty; when pdfplumber raises,
nothing is returned and the fallback is not consulted. -/
theorem c8_amended (primary : Except Unit (List PyStr))
    (fallback : Except Unit (List (Except Unit PyStr))) :
    (∀ pages, primary = Except.ok pages →
      (pyStrip (plumberText pages)).isEmpty = true →
      extract_text_from_pdf primary fallback = pypdf2Fallback fallback) ∧
    (∀ e, primary = Except.error e →
      extract_text_from_pdf primary fallback = none) ∧
    (extract_text_from_pdf primary fallback = none ∨
      ∃ t, extract_text_from_pdf primary fallback = some t) := by
  refine ⟨?_, ?_, ?_⟩
  · intro pages h1 h2
    simp [extract_text_from_pdf, h1, h2]
  · intro e h1
    simp [extract_text_from_pdf, h1]
  · cases h : extract_text_from_pdf primary fallback with
    | none => exact Or.inl rfl
    | some t => exact Or.inr ⟨t, rfl⟩

/-- C8 witness: a pdfplumber run that completes with an all-empty page
defers to the PyPDF2 fallback, by the amended theorem at concrete
inputs. -/
theorem c8_witness :
    extract_text_from_pdf (Except.ok [([] : PyStr)])
        (Except.ok [Except.ok "x".data]) =
      pypdf2Fallback (Except.ok [Except.ok "x".data]) :=
  (c8_amended _ _).1 _ rfl (by decide)

/-- C1 counterexample: a sentence containing the capacity keywords but no
numeric-plus-unit pair yields no record at all — it is dropped, not
recorded with a null value as the claim states. -/
theorem c1_counterexample :
    hasCapacityKeyword
        (pyStrip "The grid capacity of the area is high".data) = true ∧
    pySplit '.' "The grid capacity of the area is high".data =
      ["The grid capacity of the area is high".data] ∧
    extract_capacity_info "The grid capacity of the area is high".data 3 = [] := by
  decide

/-- C1 amended: a sentence produces exactly one capacity record iff it
contains both a capacity-vocabulary term and at least one numeric+unit
regex match; every emitted record carries a non-empty value list, and a
keyword sentence without a numeric+unit pair is dropped rather than
recorded with a null value. -/
theorem c1_amended (text : PyStr) (p : Nat) :
    (extract_capacity_info text p).length =
      ((pySplit '.' text).countP fun s =>
        hasCapacityKeyword (pyStrip s) &&
          !(findCapacityValues (pyStrip s)).isEmpty) ∧
    (∀ r ∈ extract_capacity_info text p, r.values ≠ []) ∧
    extract_capacity_info
        "The planned link adds 400 MW of transmission capacity. It will be finished on time.".data
        2 =
      [{ page := 2
         text := "The planned link adds 400 MW of transmission capacity".data
         values := [("400".data, "MW".data)] }] := by
  refine ⟨?_, ?_, ?_⟩
  · have key : ∀ L : List PyStr,
        (L.filterMap fun sentence =>
          let s := pyStrip sentence
          if hasCapacityKeyword s then
            let numbers := findCapacityValues s
            if numbers.isEmpty then none
            else some ({ page := p, text := s, values := numbers } : CapacityMatch)
          else none).length =
          L.countP fun s =>
            hasCapacityKeyword (pyStrip s) &&
              !(findCapacityValues (pyStrip s)).isEmpty := by
      intro L
      induction L with
      | nil => rfl
      | cons s t ih =>
        by_cases h1 : hasCapacityKeyword (pyStrip s)
        · by_cases h2 : findCapacityValues (pyStrip s) = []
          · simp [List.filterMap_cons, List.countP_cons, h1, h2] at ih ⊢
            omega
          · simp [List.filterMap_cons, List.countP_cons, h1, h2] at ih ⊢
            omega
        · simp [List.filterMap_cons, List.countP_cons, h1] at ih ⊢
          omega
    exact key (pySplit '.' text)
  · intro r hr
    unfold extract_capacity_info at hr
    rw [List.mem_filterMap] at hr
    obtain ⟨s, _, hf⟩ := hr
    by_cases h1 : hasCapacityKeyword (pyStrip s)
    · by_cases h2 : findCapacityValues (pyStrip s) = []
      · simp [h1, h2] at hf
      · simp [h1, h2] at hf
        subst hf
        simpa using h2
    · simp [h1] at hf
  · decide

/-- C1 witness: the amended statement applied to a one-sentence text with
a numeric capacity, with the emitted record exhibited. -/
theorem c1_witness :
    (extract_capacity_info "Grid capacity is 5 GW".data 0).length =
      ((pySplit '.' "Grid capacity is 5 GW".data).countP fun s =>
        hasCapacityKeyword (pyStrip s) &&
          !(findCapacityValues (pyStrip s)).isEmpty) ∧
    ({ page := 0
       text := "Grid capacity is 5 GW".data
       values := [("5".data, "GW".data)] } : CapacityMatch).values ≠ [] :=
  ⟨(c1_amended "Grid capacity is 5 GW".data 0).1,
   (c1_amended "Grid capacity is 5 GW".data 0).2.1 _ (by decide)⟩

/-- The filenames column of the `document_metadata` table. -/
def metaFilenames (tbl : List MetaRow) : List PyStr := tbl.map MetaRow.filename

/-- Membership in the filename column after one upsert. -/
theorem mem_metaFilenames_upsert {tbl : List MetaRow} {r : MetaRow} {x : PyStr} :
    x ∈ metaFilenames (upsertMeta tbl r) ↔
      x = r.filename ∨ x ∈ metaFilenames tbl := by
  unfold upsertMeta metaFilenames
  rw [List.map_append, List.mem_append]
  simp only [List.map_cons, List.map_nil, List.mem_singleton, List.mem_map,
    List.mem_filter, decide_not, Bool.not_eq_true', decide_eq_false_iff_not]
  constructor
  · rintro (⟨a, ⟨ha, _⟩, rfl⟩ | h)
    · exact Or.inr ⟨a, ha, rfl⟩
    · exact Or.inl h
  · rintro (rfl | ⟨a, ha, rfl⟩)
    · exact Or.inr rfl
    · by_cases hne : a.filename = r.filename
      · exact Or.inr hne
      · exact Or.inl ⟨a, ⟨ha, hne⟩, rfl⟩

/-- One upsert keeps the filename column duplicate-free. -/
theorem nodup_metaFilenames_upsert {tbl : List MetaRow} {r : MetaRow}
    (h : (metaFilenames tbl).Nodup) :
    (metaFilenames (upsertMeta tbl r)).Nodup := by
  unfold upsertMeta metaFilenames
  rw [List.map_append]
  apply List.Nodup.append
  · exact ((List.filter_sublist tbl).map MetaRow.filename).nodup h
  · simp
  · intro x hx hy
    simp at hy
    simp [List.mem_filter] at hx
    obtain ⟨a, ⟨_, hne⟩, hax⟩ := hx
    rw [hy] at hax
    exact hne (by simpa using hax)

/-- Unfolding one step of the metadata insertion fold. -/
theorem insert_meta_cons (tbl : List MetaRow) (q : PyStr × DocSummary)
    (rest : List (PyStr × DocSummary)) :
    insert_document_metadata tbl (q :: rest) =
      insert_document_metadata (upsertMeta tbl (metaRowOf q)) rest := rfl

/-- The whole insertion keeps the filename column duplicate-free. -/
theorem nodup_insert_meta (summaries : List (PyStr × DocSummary)) :
    ∀ tbl : List MetaRow, (metaFilenames tbl).Nodup →
      (metaFilenames (insert_document_metadata tbl summaries)).Nodup := by
  induction summaries with
  | nil => intro tbl h; exact h
  | cons q rest ih =>
    intro tbl h
    rw [insert_meta_cons]
    exact ih _ (nodup_metaFilenames_upsert h)

/-- Membership in the filename column after the whole insertion: exactly
the previous filenames together with the processed summary keys. -/
theorem mem_insert_meta (summaries : List (PyStr × DocSummary)) :
    ∀ (tbl : List MetaRow) (x : PyStr),
      x ∈ metaFilenames (insert_document_metadata tbl summaries) ↔
        x ∈ summaries.map Prod.fst ∨ x ∈ metaFilenames tbl := by
  induction summaries with
  | nil =>
    intro tbl x
    constructor
    · intro h
      exact Or.inr h
    · rintro (h | h)
      · exact absurd h (List.not_mem_nil x)
      · exact h
  | cons q rest ih =>
    intro tbl x
    rw [insert_meta_cons, ih, mem_metaFilenames_upsert]
    have hq : (metaRowOf q).filename = q.1 := rfl
    rw [hq, List.map_cons, List.mem_cons]
    tauto

/-- C9: loading the same analysis data twice preserves the at-most-one
row-per-filename invariant of `document_metadata` — the second load
replaces rather than duplicates, leaving the row count unchanged — while
each of the four typed record tables grows by pure appending on every
load, with nothing deduplicated or removed. -/
theorem c9_reload_semantics (db : GridDb) (data : AnalysisData)
    (h : (metaFilenames db.document_metadata).Nodup) :
    (metaFilenames (create_database db data).document_metadata).Nodup ∧
    (metaFilenames
      (create_database (create_database db data) data).document_metadata).Nodup ∧
    (create_database (create_database db data) data).document_metadata.length =
      (create_database db data).document_metadata.length ∧
    (create_database db data).grid_capacity =
      db.grid_capacity ++ data.capacity_data.map capacityRowOfItem ∧
    (create_database (create_database db data) data).grid_capacity =
      db.grid_capacity ++ data.capacity_data.map capacityRowOfItem ++
        data.capacity_data.map capacityRowOfItem ∧
    (create_database (create_database db data) data).grid_connections =
      db.grid_connections ++ data.connection_data.map connectionRowOfItem ++
        data.connection_data.map connectionRowOfItem ∧
    (create_database (create_database db data) data).grid_constraints =
      db.grid_constraints ++ data.constraint_data.map constraintRowOfItem ++
        data.constraint_data.map constraintRowOfItem ∧
    (create_database (create_database db data) data).investment_projects =
      db.investment_projects ++ data.investment_data.map investmentRowOfItem ++
        data.investment_data.map investmentRowOfItem := by
  have h1 : (metaFilenames (create_database db data).document_metadata).Nodup :=
    nodup_insert_meta data.document_summaries db.document_metadata h
  have h2 : (metaFilenames
      (create_database (create_database db data) data).document_metadata).Nodup :=
    nodup_insert_meta data.document_summaries _ h1
  have hmem : ∀ x : PyStr,
      x ∈ metaFilenames
          (create_database (create_database db data) data).document_metadata ↔
        x ∈ metaFilenames (create_database db data).document_metadata := by
    intro x
    show x ∈ metaFilenames (insert_document_metadata _ _) ↔ _
    rw [mem_insert_meta]
    constructor
    · rintro (hk | hm)
      · show x ∈ metaFilenames (insert_document_metadata _ _)
        rw [mem_insert_meta]
        exact Or.inl hk
      · exact hm
    · intro hm
      exact Or.inr hm
  have hfin : (metaFilenames
      (create_database (create_database db data) data).document_metadata).toFinset =
      (metaFilenames (create_database db data).document_metadata).toFinset := by
    ext x
    simp only [List.mem_toFinset]
    exact hmem x
  have hlen :
      (create_database (create_database db data) data).document_metadata.length =
        (create_database db data).document_metadata.length := by
    have e2 : (metaFilenames
        (create_database (create_database db data) data).document_metadata).length =
        (create_database (create_database db data) data).document_metadata.length :=
      List.length_map _ _
    have e1 : (metaFilenames (create_database db data).document_metadata).length =
        (create_database db data).document_metadata.length :=
      List.length_map _ _
    rw [← e2, ← e1, ← List.toFinset_card_of_nodup h2,
      ← List.toFinset_card_of_nodup h1, hfin]
  exact ⟨h1, h2, hlen, rfl, rfl, rfl, rfl, rfl⟩

/-- An empty five-table store. -/
def emptyGridDb : GridDb :=
  { grid_capacity := []
    grid_connections := []
    grid_constraints := []
    investment_projects := []
    document_metadata := [] }

/-- A one-document analysis payload for exercising the loader. -/
def sampleAnalysis : AnalysisData :=
  { capacity_data :=
      [{ page := 1
         text := "Grid capacity is 5 GW".data
         values := [("5".data, "GW".data)] }]
    connection_data := []
    constraint_data := []
    investment_data := []
    document_summaries :=
      [("fingrid_plan.pdf".data,
        { pages_processed := 3
          capacity_info :=
            [{ page := 1
               text := "Grid capacity is 5 GW".data
               values := [("5".data, "GW".data)] }]
          connection_info := []
          constraint_info := []
          investment_info := [] })] }

/-- C9 witness: reloading the sample analysis leaves the metadata row
count unchanged, by the reload theorem at a concrete store. -/
theorem c9_witness :
    (create_database (create_database emptyGridDb sampleAnalysis)
        sampleAnalysis).document_metadata.length =
      (create_database emptyGridDb sampleAnalysis).document_metadata.length :=
  (c9_reload_semantics emptyGridDb sampleAnalysis (by decide)).2.2.1

end PoriGrid
